import Mathlib

/-!
Verification of `auto_watering.py` (sasahara08/auto-water-system).

The script is embedded shallowly as a trace semantics: every observable
side effect of the program (console print, directory creation, file
append, relay line operation) is an `Event`, and the program's control
flow is translated into pure functions producing lists of events.

Numeric conventions: Python ints are `ℤ`/`ℕ`, `time.time()` values and
sensor voltages are `ℚ` (exact rationals standing for the floats; all
comparisons the program performs on them are order comparisons, which
are faithfully represented), and `str.format`/f-string rendering of
numbers is modelled by explicit decimal rendering functions below.
-/

/-! ## Configuration constants (lines 18-30 of auto_watering.py) -/

def DRY_THRESHOLD : ℤ := 19000

def PUMP_ON_SEC : ℕ := 3

def WAIT_AFTER_WATER : ℕ := 300

def LOOP_INTERVAL : ℕ := 600

def LOG_INTERVAL : ℕ := 1

def RELAY_GPIO : ℕ := 4

/-- Model of `gpiod.line.Value`: the physical level of a GPIO line. -/
inductive GpiodValue
  | ACTIVE
  | INACTIVE
deriving DecidableEq, Repr

/-- Source line 26: `RELAY_ON = gpiod.line.Value.INACTIVE` (the relay hardware is active-low). -/
def RELAY_ON : GpiodValue := GpiodValue.INACTIVE

/-- Source line 27: `RELAY_OFF = gpiod.line.Value.ACTIVE`. -/
def RELAY_OFF : GpiodValue := GpiodValue.ACTIVE

/-- Source line 30: `LOG_BASE_DIR = Path(__file__).parent / "log"`, modelled relative to the
script directory as the single path component `"log"`. -/
def LOG_BASE_DIR : List String := ["log"]

/-! ## Decimal rendering (model of Python str()/f-string number formatting) -/

/-- The ASCII digit character for `n` (meaningful for `n < 10`). -/
def digitChar (n : ℕ) : Char := Char.ofNat (48 + n)

/-- Decimal digits of `n`, most significant first; `fuel`-structured so the
definition reduces by `rfl` (any `fuel ≥` the digit count of `n` is enough). -/
def natDigits : ℕ → ℕ → List Char
  | 0, _ => []
  | fuel + 1, n =>
    if n < 10 then [digitChar n]
    else natDigits fuel (n / 10) ++ [digitChar (n % 10)]

/-- Model of Python `str(n)` for a natural number. -/
def natToString (n : ℕ) : String := String.mk (natDigits (n + 1) n)

/-- Model of Python `str(i)` for an int. -/
def intToString (i : ℤ) : String :=
  if i < 0 then "-" ++ natToString i.natAbs else natToString i.toNat

/-- Two-digit zero-padded rendering (`strftime` `%m`, `%d`, `%H`, `%M`, `%S`). -/
def pad2 (n : ℕ) : String := String.mk [digitChar (n / 10 % 10), digitChar (n % 10)]

/-- Three-digit zero-padded rendering (fraction part of `%.3f`). -/
def pad3 (n : ℕ) : String :=
  String.mk [digitChar (n / 100 % 10), digitChar (n / 10 % 10), digitChar (n % 10)]

/-- Four-digit zero-padded rendering (`strftime` `%Y`, for years `< 10000`). -/
def pad4 (n : ℕ) : String :=
  String.mk [digitChar (n / 1000 % 10), digitChar (n / 100 % 10),
             digitChar (n / 10 % 10), digitChar (n % 10)]

/-- Mathematical floor of a rational, computed on the numerator/denominator. -/
def ratFloor (q : ℚ) : ℤ := Int.fdiv q.num q.den

/-- Round a rational to the nearest integer, ties to even - the rounding CPython
uses when formatting the exact rational value of a float with `%.3f`. -/
def roundHalfEven (q : ℚ) : ℤ :=
  let n : ℤ := ratFloor q
  let r : ℚ := q - (n : ℚ)
  if 1 / 2 < r then n + 1
  else if r < 1 / 2 then n
  else if n % 2 = 0 then n else n + 1

/-- Render `m` thousandths as a decimal with exactly three fraction digits. -/
def fmt3Milli (m : ℤ) : String :=
  natToString (m.toNat / 1000) ++ "." ++ pad3 (m.toNat % 1000)

/-- Model of the f-string conversion `{v:.3f}` for a nonnegative value `v`. -/
def fmt3 (v : ℚ) : String := fmt3Milli (roundHalfEven (v * 1000))

/-! ## Timestamps and log file paths -/

/-- The value of a `datetime.now()` call. -/
structure DateTime where
  year : ℕ
  month : ℕ
  day : ℕ
  hour : ℕ
  minute : ℕ
  second : ℕ
deriving DecidableEq, Repr

/-- Rendering of `now.strftime('%Y-%m-%d %H:%M:%S')`. -/
def timestampStr (now : DateTime) : String :=
  pad4 now.year ++ "-" ++ pad2 now.month ++ "-" ++ pad2 now.day ++ " " ++
    pad2 now.hour ++ ":" ++ pad2 now.minute ++ ":" ++ pad2 now.second

/-- Components of `LOG_BASE_DIR / now.strftime("%Y") / now.strftime("%m")`. -/
def logDir (now : DateTime) : List String :=
  LOG_BASE_DIR ++ [pad4 now.year, pad2 now.month]

/-- Components of `log_dir / f"{now.strftime('%Y-%m-%d')}.log"` - the readings file. -/
def soilLogFile (now : DateTime) : List String :=
  logDir now ++ [pad4 now.year ++ "-" ++ pad2 now.month ++ "-" ++ pad2 now.day ++ ".log"]

/-- Components of `log_dir / f"{now.strftime('%Y-%m-%d')}_error.log"` - the error file. -/
def errorLogFile (now : DateTime) : List String :=
  logDir now ++ [pad4 now.year ++ "-" ++ pad2 now.month ++ "-" ++ pad2 now.day ++ "_error.log"]

/-! ## Events -/

/-- One observable side effect of the script. -/
inductive Event
  | relayRequest (gpio : ℕ) (output_value : GpiodValue)
  | consolePrint (s : String)
  | mkdirP (path : List String)
  | fileAppend (path : List String) (entry : String)
  | relaySet (gpio : ℕ) (v : GpiodValue)
  | relayRelease
deriving DecidableEq, Repr

/-! ## Logger functions (lines 36-84) -/

/-- The reading log line of `log_soil_data` (line 50):
`f"[{now:%Y-%m-%d %H:%M:%S}] {message} | raw={value}, voltage={voltage:.3f}V\n"`. -/
def logEntry (now : DateTime) (message : String) (value : ℤ) (voltage : ℚ) : String :=
  "[" ++ timestampStr now ++ "] " ++ message ++ " | raw=" ++ intToString value ++
    ", voltage=" ++ fmt3 voltage ++ "V\n"

/-- Effects of `log_soil_data(message, value, voltage)` (lines 36-56): mkdir -p the date
directory, append one line to the day's readings file, print the path. -/
def log_soil_data (now : DateTime) (message : String) (value : ℤ) (voltage : ℚ) :
    List Event :=
  [Event.mkdirP (logDir now),
   Event.fileAppend (soilLogFile now) (logEntry now message value voltage),
   Event.consolePrint ("ログ記録: " ++ String.intercalate "/" (soilLogFile now))]

/-- Sixty `'='` characters: `'='*60`. -/
def eq60 : String := String.mk (List.replicate 60 '=')

/-- The bordered error block of `log_error` (lines 71-78, a triple-quoted
f-string whose continuation lines carry the function body's indentation). -/
def errorEntry (now : DateTime) (error_type error_message traceback_str : String) :
    String :=
  eq60 ++ "\n    [ERROR] " ++ timestampStr now ++
    "\n    エラータイプ: " ++ error_type ++
    "\n    エラー内容: " ++ error_message ++
    "\n    " ++ traceback_str ++ "\n    " ++ eq60 ++ "\n\n    "

/-- Effects of `log_error(error_type, error_message, traceback_str)` (lines 59-84). -/
def log_error (now : DateTime) (error_type error_message traceback_str : String) :
    List Event :=
  [Event.mkdirP (logDir now),
   Event.fileAppend (errorLogFile now) (errorEntry now error_type error_message traceback_str),
   Event.consolePrint ("エラーログ記録: " ++ String.intercalate "/" (errorLogFile now))]

/-! ## Exceptions -/

/-- Where a raised object sits in Python's hierarchy, as far as this script's
handlers can distinguish: `Exception` subclasses are caught by the inner
`except Exception` (line 142); `KeyboardInterrupt` is not an `Exception`
subclass and reaches the outer `except KeyboardInterrupt` (line 151). -/
inductive ErrKind
  | exception
  | keyboardInterrupt
deriving DecidableEq, Repr

/-- A raised Python exception: `type(e).__name__`, `str(e)`, and the
`traceback.format_exc()` text. -/
structure PyErr where
  kind : ErrKind
  typeName : String
  message : String
  traceback : String
deriving DecidableEq, Repr

/-! ## The polling loop (lines 119-149) -/

/-- The environment one loop iteration observes: the sensor read
(`soil.value`, `soil.voltage`), the `time.time()` result, and the
`datetime.now()` used by `log_soil_data` in that iteration. -/
structure IterInput where
  value : ℤ
  voltage : ℚ
  time : ℚ
  now : DateTime
deriving DecidableEq, Repr

/-- The dry-branch message of line 135/136:
`f"ログ📙:土壌が乾燥しています------value:{value}"`. -/
def dryMessage (value : ℤ) : String :=
  "ログ📙:土壌が乾燥しています------value:" ++ intToString value

/-- The wet-branch message of line 138/139:
`f"ログ📙:土壌が湿っています------value:{value}"`. -/
def wetMessage (value : ℤ) : String :=
  "ログ📙:土壌が湿っています------value:" ++ intToString value

/-- The dryness classification of lines 134-139. -/
def loopMessage (value : ℤ) : String :=
  if DRY_THRESHOLD < value then dryMessage value else wetMessage value

/-- One iteration of the `while True` body with no exception (lines 124-140):
print the sensor line, and when `current_time - last_log_time >= LOG_INTERVAL`
set `last_log_time = current_time`, print the classification message and call
`log_soil_data` with it. Returns the events and the new `last_log_time`.
(`has_water = 0` on line 127 is dead and has no observable effect.) -/
def loopCycle (last_log_time : ℚ) (inp : IterInput) : List Event × ℚ :=
  let printSensor := Event.consolePrint
    ("土壌センサー: raw=" ++ intToString inp.value ++ " voltage=" ++ fmt3 inp.voltage ++ "V")
  if (LOG_INTERVAL : ℚ) ≤ inp.time - last_log_time then
    (printSensor :: Event.consolePrint (loopMessage inp.value) ::
       log_soil_data inp.now (loopMessage inp.value) inp.value inp.voltage,
     inp.time)
  else
    ([printSensor], last_log_time)

/-- The inner `except Exception` handler (lines 142-149): `log_error` with the
exception's type name, message and traceback, two prints, then re-`raise`. -/
def handlerEvents (errNow : DateTime) (e : PyErr) : List Event :=
  log_error errNow e.typeName e.message e.traceback ++
    [Event.consolePrint ("エラー発生: " ++ e.typeName ++ ": " ++ e.message),
     Event.consolePrint "エラーログに記録しました。システムを停止します。"]

/-- What one pass of the `while True` loop observed: either a normal sensor
read, or an exception raised in the cycle (modelled at the sensor read, the
failure point of the spec's scenario; the handler does not depend on the raise
site). `errNow` is the `datetime.now()` a `log_error` call would observe. -/
inductive ReadResult
  | ok (inp : IterInput)
  | raise (e : PyErr) (errNow : DateTime)
deriving DecidableEq, Repr

/-- The `while True` loop (lines 122-149) run over a finite prefix of observed
passes. Returns the events and, if a pass raised, the exception propagating out
of the loop: an `Exception` is logged by the inner handler and re-raised; a
`KeyboardInterrupt` is not caught by `except Exception` and propagates
directly. Remaining passes after a raise never run (no retry). -/
def runLoop (last_log_time : ℚ) : List ReadResult → List Event × Option PyErr
  | [] => ([], none)
  | ReadResult.ok inp :: rest =>
    let step := loopCycle last_log_time inp
    let r := runLoop step.2 rest
    (step.1 ++ r.1, r.2)
  | ReadResult.raise e errNow :: _ =>
    match e.kind with
    | ErrKind.exception => (handlerEvents errNow e, some e)
    | ErrKind.keyboardInterrupt => ([], some e)

/-- The value of `last_log_time` after a run of normal passes. -/
def lastAfter (last_log_time : ℚ) : List IterInput → ℚ
  | [] => last_log_time
  | inp :: rest => lastAfter (loopCycle last_log_time inp).2 rest

/-! ## Startup, cleanup, whole program (lines 93-161) -/

/-- Model of `gpiod.line.Direction`. -/
inductive Direction
  | INPUT
  | OUTPUT
deriving DecidableEq, Repr

/-- Model of `gpiod.LineSettings(...)`. -/
structure LineSettings where
  direction : Direction
  output_value : GpiodValue
deriving DecidableEq, Repr

/-- The settings passed for `RELAY_GPIO` in `gpiod.request_lines` (lines
97-100): an output driven to `RELAY_OFF`. -/
def relaySettings : LineSettings :=
  { direction := Direction.OUTPUT, output_value := RELAY_OFF }

/-- libgpiod v2 semantics of requesting a line as OUTPUT: the line is driven
to the configured `output_value`, whatever its prior level was. -/
def applyRequest (_prior : GpiodValue) (cfg : LineSettings) : GpiodValue :=
  cfg.output_value

/-- Logical relay state of a physical line level: the relay is active-low, so
the pump is ON exactly when the line is at the INACTIVE level (`RELAY_ON`). -/
def logicalOn : GpiodValue → Bool
  | GpiodValue.INACTIVE => true
  | GpiodValue.ACTIVE => false

/-- Module-level startup (lines 93-116): request the relay line as an output
at `RELAY_OFF`, then the three banner prints (line 116 prints
`LOG_INTERVAL // 60`, which is `0` for `LOG_INTERVAL = 1`). -/
def startupEvents : List Event :=
  [Event.relayRequest RELAY_GPIO RELAY_OFF,
   Event.consolePrint "自動水やりシステム起動（ログ記録機能付き）",
   Event.consolePrint ("ログディレクトリ: " ++ String.intercalate "/" LOG_BASE_DIR),
   Event.consolePrint ("ログ記録間隔: " ++ natToString (LOG_INTERVAL / 60) ++ "分ごと")]

/-- Faults the `finally` block may encounter: `setErr` is the message of an
exception raised by `relay_request.set_value`, `releaseErr` of one raised by
`relay_request.release` (when the set succeeded). `none` means success. -/
structure CleanupFaults where
  setErr : Option String
  releaseErr : Option String
deriving DecidableEq, Repr

/-- The `finally` block (lines 154-161): print, then try to set the relay line
to `RELAY_OFF` and release it; any exception from those calls is caught by
`except Exception` and only printed. The block itself never raises. -/
def cleanupEvents (f : CleanupFaults) : List Event :=
  Event.consolePrint "クリーンアップ中..." ::
    match f.setErr with
    | some msg => [Event.consolePrint ("クリーンアップ中にエラー: " ++ msg)]
    | none =>
      Event.relaySet RELAY_GPIO RELAY_OFF ::
        match f.releaseErr with
        | some msg => [Event.consolePrint ("クリーンアップ中にエラー: " ++ msg)]
        | none => [Event.relayRelease, Event.consolePrint "クリーンアップ完了"]

/-- How the process left (or has not yet left) the script. -/
inductive ExitStatus
  | running
  | clean
  | fatal (e : PyErr)
deriving DecidableEq, Repr

/-- The whole script (lines 93-161): startup, then the loop with
`last_log_time = 0` (line 119). If no pass raised, the process is still inside
`while True` (`running`); on `KeyboardInterrupt` the outer handler prints and
the exit is clean; on an `Exception` the re-raised exception is fatal. The
`finally` block runs on both exit paths. -/
def runProgram (reads : List ReadResult) (f : CleanupFaults) : List Event × ExitStatus :=
  let lr := runLoop 0 reads
  match lr.2 with
  | none => (startupEvents ++ lr.1, ExitStatus.running)
  | some e =>
    match e.kind with
    | ErrKind.keyboardInterrupt =>
      (startupEvents ++ lr.1 ++
         [Event.consolePrint "\nユーザーによって停止されました"] ++ cleanupEvents f,
       ExitStatus.clean)
    | ErrKind.exception =>
      (startupEvents ++ lr.1 ++ cleanupEvents f, ExitStatus.fatal e)

/-! ## Observation helpers -/

/-- Is this event a file append? -/
def isFileAppend : Event → Bool
  | Event.fileAppend _ _ => true
  | _ => false

/-- Is this event a file append to the given path? -/
def isAppendTo (p : List String) : Event → Bool
  | Event.fileAppend q _ => decide (q = p)
  | _ => false

/-- Is this event an operation on the relay line? -/
def isRelayEvent : Event → Bool
  | Event.relayRequest _ _ => true
  | Event.relaySet _ _ => true
  | Event.relayRelease => true
  | _ => false

/-- Does this event drive the relay line to the pump-ON level? -/
def isPumpOn : Event → Bool
  | Event.relayRequest _ v => decide (v = RELAY_ON)
  | Event.relaySet _ v => decide (v = RELAY_ON)
  | _ => false

/-- Number of file appends among the events. -/
def countAppends (evs : List Event) : ℕ := (evs.filter isFileAppend).length

/-- The physical level the relay line was last driven to, if any. -/
def finalRelay (evs : List Event) : Option GpiodValue :=
  evs.foldl
    (fun acc ev =>
      match ev with
      | Event.relayRequest _ v => some v
      | Event.relaySet _ v => some v
      | _ => acc)
    none

/-! ## Helper lemmas: decimal digits and path injectivity -/

theorem digitChar_inj {a b : ℕ} (ha : a < 10) (hb : b < 10)
    (h : digitChar a = digitChar b) : a = b := by
  have key : ∀ x < 10, ∀ y < 10, digitChar x = digitChar y → x = y := by decide
  exact key a ha b hb h

theorem digitChar_ne_newline {a : ℕ} (ha : a < 10) : digitChar a ≠ '\n' := by
  have key : ∀ x < 10, digitChar x ≠ '\n' := by decide
  exact key a ha

theorem pad2_inj {n m : ℕ} (hn : n < 100) (hm : m < 100) (h : pad2 n = pad2 m) :
    n = m := by
  unfold pad2 at h
  injection h with h
  simp only [List.cons.injEq, and_true] at h
  obtain ⟨h1, h2⟩ := h
  have e1 := digitChar_inj (Nat.mod_lt _ (by norm_num)) (Nat.mod_lt _ (by norm_num)) h1
  have e2 := digitChar_inj (Nat.mod_lt _ (by norm_num)) (Nat.mod_lt _ (by norm_num)) h2
  omega

theorem pad4_inj {n m : ℕ} (hn : n < 10000) (hm : m < 10000) (h : pad4 n = pad4 m) :
    n = m := by
  unfold pad4 at h
  injection h with h
  simp only [List.cons.injEq, and_true] at h
  obtain ⟨h1, h2, h3, h4⟩ := h
  have e1 := digitChar_inj (Nat.mod_lt _ (by norm_num)) (Nat.mod_lt _ (by norm_num)) h1
  have e2 := digitChar_inj (Nat.mod_lt _ (by norm_num)) (Nat.mod_lt _ (by norm_num)) h2
  have e3 := digitChar_inj (Nat.mod_lt _ (by norm_num)) (Nat.mod_lt _ (by norm_num)) h3
  have e4 := digitChar_inj (Nat.mod_lt _ (by norm_num)) (Nat.mod_lt _ (by norm_num)) h4
  omega

/-- The readings file name has 14 characters, the error file name 20, so the
two can never coincide, whatever the dates are. -/
theorem soilLogFile_ne_errorLogFile (d1 d2 : DateTime) :
    soilLogFile d1 ≠ errorLogFile d2 := by
  intro h
  unfold soilLogFile errorLogFile logDir LOG_BASE_DIR at h
  simp only [List.cons_append, List.nil_append, List.cons.injEq] at h
  have hname : pad4 d1.year ++ "-" ++ pad2 d1.month ++ "-" ++ pad2 d1.day ++ ".log"
      = pad4 d2.year ++ "-" ++ pad2 d2.month ++ "-" ++ pad2 d2.day ++ "_error.log" :=
    h.2.2.2.1
  have hlen := congrArg String.length hname
  have l14 : (pad4 d1.year ++ "-" ++ pad2 d1.month ++ "-" ++ pad2 d1.day ++ ".log").length
      = 14 := rfl
  have l20 : (pad4 d2.year ++ "-" ++ pad2 d2.month ++ "-" ++ pad2 d2.day
      ++ "_error.log").length = 20 := rfl
  rw [l14, l20] at hlen
  exact absurd hlen (by norm_num)

/-- Splitting `pad4 y ++ "-" ++ pad2 m ++ "-" ++ pad2 d ++ suffix` back into
its date components: the pads have fixed widths, so equal strings of this
shape (same suffix) have equal pads. -/
theorem dateName_inj {y1 m1 d1 y2 m2 d2 : ℕ} (suffix : String)
    (h : pad4 y1 ++ "-" ++ pad2 m1 ++ "-" ++ pad2 d1 ++ suffix
       = pad4 y2 ++ "-" ++ pad2 m2 ++ "-" ++ pad2 d2 ++ suffix) :
    pad4 y1 = pad4 y2 ∧ pad2 m1 = pad2 m2 ∧ pad2 d1 = pad2 d2 := by
  have hd := congrArg String.data h
  simp only [String.data_append] at hd
  obtain ⟨hd, -⟩ := List.append_inj' hd rfl
  obtain ⟨hd, e2d⟩ := List.append_inj' hd rfl
  obtain ⟨hd, -⟩ := List.append_inj' hd rfl
  obtain ⟨hd, e2m⟩ := List.append_inj' hd rfl
  obtain ⟨e4, -⟩ := List.append_inj' hd rfl
  exact ⟨String.ext e4, String.ext e2m, String.ext e2d⟩

/-! ## Helper lemmas: newline-free rendering -/

theorem natDigits_mem {fuel n : ℕ} {c : Char} (h : c ∈ natDigits fuel n) :
    ∃ k, k < 10 ∧ c = digitChar k := by
  induction fuel generalizing n with
  | zero => simp [natDigits] at h
  | succ fuel ih =>
    rw [natDigits] at h
    by_cases h10 : n < 10
    · rw [if_pos h10] at h
      simp only [List.mem_singleton] at h
      exact ⟨n, h10, h⟩
    · rw [if_neg h10] at h
      rcases List.mem_append.1 h with h | h
      · exact ih h
      · simp only [List.mem_singleton] at h
        exact ⟨n % 10, Nat.mod_lt _ (by norm_num), h⟩

theorem newline_notin_natToString (n : ℕ) : '\n' ∉ (natToString n).data := by
  intro h
  obtain ⟨k, hk, hc⟩ := natDigits_mem h
  exact digitChar_ne_newline hk hc.symm

theorem count_nl_natToString (n : ℕ) : (natToString n).data.count '\n' = 0 :=
  List.count_eq_zero.2 (newline_notin_natToString n)

theorem count_nl_intToString (i : ℤ) : (intToString i).data.count '\n' = 0 := by
  unfold intToString
  by_cases h : i < 0
  · rw [if_pos h]
    simp [String.data_append, List.count_append, count_nl_natToString]
  · rw [if_neg h]
    exact count_nl_natToString _

theorem count_nl_pad2 (n : ℕ) : (pad2 n).data.count '\n' = 0 := by
  apply List.count_eq_zero.2
  intro h
  unfold pad2 at h
  simp only [String.data] at h
  rcases List.mem_cons.1 h with h | h
  · exact digitChar_ne_newline (Nat.mod_lt _ (by norm_num)) h.symm
  rcases List.mem_cons.1 h with h | h
  · exact digitChar_ne_newline (Nat.mod_lt _ (by norm_num)) h.symm
  · simp at h

theorem count_nl_pad3 (n : ℕ) : (pad3 n).data.count '\n' = 0 := by
  apply List.count_eq_zero.2
  intro h
  unfold pad3 at h
  simp only [String.data] at h
  rcases List.mem_cons.1 h with h | h
  · exact digitChar_ne_newline (Nat.mod_lt _ (by norm_num)) h.symm
  rcases List.mem_cons.1 h with h | h
  · exact digitChar_ne_newline (Nat.mod_lt _ (by norm_num)) h.symm
  rcases List.mem_cons.1 h with h | h
  · exact digitChar_ne_newline (Nat.mod_lt _ (by norm_num)) h.symm
  · simp at h

theorem count_nl_pad4 (n : ℕ) : (pad4 n).data.count '\n' = 0 := by
  apply List.count_eq_zero.2
  intro h
  unfold pad4 at h
  simp only [String.data] at h
  rcases List.mem_cons.1 h with h | h
  · exact digitChar_ne_newline (Nat.mod_lt _ (by norm_num)) h.symm
  rcases List.mem_cons.1 h with h | h
  · exact digitChar_ne_newline (Nat.mod_lt _ (by norm_num)) h.symm
  rcases List.mem_cons.1 h with h | h
  · exact digitChar_ne_newline (Nat.mod_lt _ (by norm_num)) h.symm
  rcases List.mem_cons.1 h with h | h
  · exact digitChar_ne_newline (Nat.mod_lt _ (by norm_num)) h.symm
  · simp at h

theorem count_nl_timestampStr (d : DateTime) : (timestampStr d).data.count '\n' = 0 := by
  unfold timestampStr
  simp [String.data_append, List.count_append, count_nl_pad2, count_nl_pad4]

theorem count_nl_fmt3 (v : ℚ) : (fmt3 v).data.count '\n' = 0 := by
  unfold fmt3 fmt3Milli
  simp [String.data_append, List.count_append, count_nl_pad3, count_nl_natToString]

theorem count_nl_dryMessage (v : ℤ) : (dryMessage v).data.count '\n' = 0 := by
  unfold dryMessage
  simp [String.data_append, List.count_append, count_nl_intToString]

theorem count_nl_wetMessage (v : ℤ) : (wetMessage v).data.count '\n' = 0 := by
  unfold wetMessage
  simp [String.data_append, List.count_append, count_nl_intToString]

theorem count_nl_loopMessage (v : ℤ) : (loopMessage v).data.count '\n' = 0 := by
  unfold loopMessage
  by_cases h : DRY_THRESHOLD < v
  · rw [if_pos h]; exact count_nl_dryMessage v
  · rw [if_neg h]; exact count_nl_wetMessage v

/-! ## Helper lemmas: loop event structure -/

/-- Every event a normal iteration emits is a console print, the mkdir of the
iteration's date directory, or the append of the classified reading line to
the iteration's readings file. -/
theorem loopCycle_mem_shape {last : ℚ} {inp : IterInput} {ev : Event}
    (h : ev ∈ (loopCycle last inp).1) :
    (∃ s, ev = Event.consolePrint s) ∨ ev = Event.mkdirP (logDir inp.now) ∨
      ev = Event.fileAppend (soilLogFile inp.now)
        (logEntry inp.now (loopMessage inp.value) inp.value inp.voltage) := by
  unfold loopCycle at h
  by_cases hg : (LOG_INTERVAL : ℚ) ≤ inp.time - last
  · rw [if_pos hg] at h
    simp only [log_soil_data, List.mem_cons, List.not_mem_nil, or_false] at h
    rcases h with h | h | h | h | h
    · exact Or.inl ⟨_, h⟩
    · exact Or.inl ⟨_, h⟩
    · exact Or.inr (Or.inl h)
    · exact Or.inr (Or.inr h)
    · exact Or.inl ⟨_, h⟩
  · rw [if_neg hg] at h
    simp only [List.mem_singleton] at h
    exact Or.inl ⟨_, h⟩

/-- Every event a run of normal passes emits is a console print, a mkdir, or
an append to some day's readings file. -/
theorem runLoopOk_mem_shape {oks : List IterInput} {last : ℚ} {ev : Event}
    (h : ev ∈ (runLoop last (oks.map ReadResult.ok)).1) :
    (∃ s, ev = Event.consolePrint s) ∨ (∃ d, ev = Event.mkdirP (logDir d)) ∨
      ∃ d entry, ev = Event.fileAppend (soilLogFile d) entry := by
  induction oks generalizing last with
  | nil => simp [runLoop] at h
  | cons inp rest ih =>
    simp only [List.map_cons, runLoop, List.mem_append] at h
    rcases h with h | h
    · rcases loopCycle_mem_shape h with h | h | h
      · exact Or.inl h
      · exact Or.inr (Or.inl ⟨_, h⟩)
      · exact Or.inr (Or.inr ⟨_, _, h⟩)
    · exact ih h

/-- A run of normal passes raises nothing. -/
theorem runLoopOk_snd (oks : List IterInput) (last : ℚ) :
    (runLoop last (oks.map ReadResult.ok)).2 = none := by
  induction oks generalizing last with
  | nil => rfl
  | cons inp rest ih => simp only [List.map_cons, runLoop]; exact ih _

/-- Splitting a run at a suffix: the events concatenate and the propagated
exception is the suffix's, with `last_log_time` threaded by `lastAfter`. -/
theorem runLoop_append (oks : List IterInput) (last : ℚ) (rest : List ReadResult) :
    runLoop last (oks.map ReadResult.ok ++ rest)
      = ((runLoop last (oks.map ReadResult.ok)).1 ++ (runLoop (lastAfter last oks) rest).1,
         (runLoop (lastAfter last oks) rest).2) := by
  induction oks generalizing last with
  | nil => simp [runLoop, lastAfter]
  | cons inp oks ih =>
    simp only [List.map_cons, List.cons_append, runLoop, lastAfter, List.append_eq]
    rw [ih]
    simp [List.append_assoc]

/-- Events of a run of normal passes contain no relay operation. -/
theorem runLoopOk_no_relay (oks : List IterInput) (last : ℚ) :
    (runLoop last (oks.map ReadResult.ok)).1.filter isRelayEvent = [] := by
  rw [List.filter_eq_nil_iff]
  intro ev hev
  rcases runLoopOk_mem_shape hev with ⟨s, rfl⟩ | ⟨d, rfl⟩ | ⟨d, entry, rfl⟩ <;>
    simp [isRelayEvent]

/-- Events of a run of normal passes contain no pump-ON level. -/
theorem runLoopOk_no_pumpOn (oks : List IterInput) (last : ℚ) :
    (runLoop last (oks.map ReadResult.ok)).1.filter isPumpOn = [] := by
  rw [List.filter_eq_nil_iff]
  intro ev hev
  rcases runLoopOk_mem_shape hev with ⟨s, rfl⟩ | ⟨d, rfl⟩ | ⟨d, entry, rfl⟩ <;>
    simp [isPumpOn]

/-- Events of a run of normal passes contain no append to any error file. -/
theorem runLoopOk_no_errorAppend (oks : List IterInput) (last : ℚ) (d : DateTime) :
    (runLoop last (oks.map ReadResult.ok)).1.filter (isAppendTo (errorLogFile d)) = [] := by
  rw [List.filter_eq_nil_iff]
  intro ev hev
  rcases runLoopOk_mem_shape hev with ⟨s, rfl⟩ | ⟨d', rfl⟩ | ⟨d', entry, rfl⟩
  · simp [isAppendTo]
  · simp [isAppendTo]
  · simp [isAppendTo, soilLogFile_ne_errorLogFile d' d]

/-- The handler block appends to the error file of its `datetime.now()` and to
nothing else. -/
theorem handlerEvents_filter_appendTo (errNow : DateTime) (e : PyErr) (p : List String) :
    (handlerEvents errNow e).filter (isAppendTo p)
      = if errorLogFile errNow = p then
          [Event.fileAppend (errorLogFile errNow)
            (errorEntry errNow e.typeName e.message e.traceback)]
        else [] := by
  by_cases hp : errorLogFile errNow = p
  · rw [if_pos hp]
    subst hp
    simp [handlerEvents, log_error, isAppendTo]
  · rw [if_neg hp]
    simp [handlerEvents, log_error, isAppendTo, hp]

/-- The cleanup block never writes to a file. -/
theorem cleanupEvents_no_append (f : CleanupFaults) :
    (cleanupEvents f).filter isFileAppend = [] := by
  obtain ⟨s, r⟩ := f
  cases s <;> cases r <;> rfl

/-- The cleanup block never appends to any given path. -/
theorem cleanupEvents_no_appendTo (f : CleanupFaults) (p : List String) :
    (cleanupEvents f).filter (isAppendTo p) = [] := by
  obtain ⟨s, r⟩ := f
  cases s <;> cases r <;> rfl

/-- The cleanup block never drives the pump-ON level. -/
theorem cleanupEvents_no_pumpOn (f : CleanupFaults) :
    (cleanupEvents f).filter isPumpOn = [] := by
  obtain ⟨s, r⟩ := f
  cases s <;> cases r <;> rfl

/-! ## Helper lemmas: relay state folding and program structure -/

/-- Folding `finalRelay`'s step over relay-free events keeps the accumulator. -/
theorem relayFold_no_relay (evs : List Event)
    (h : ∀ ev ∈ evs, isRelayEvent ev = false) (acc : Option GpiodValue) :
    evs.foldl
      (fun acc ev =>
        match ev with
        | Event.relayRequest _ v => some v
        | Event.relaySet _ v => some v
        | _ => acc)
      acc = acc := by
  induction evs generalizing acc with
  | nil => rfl
  | cons ev rest ih =>
    have hev := h ev (List.mem_cons_self ev rest)
    have hrest : ∀ e ∈ rest, isRelayEvent e = false :=
      fun e he => h e (List.mem_cons_of_mem ev he)
    cases ev with
    | relayRequest g v => simp [isRelayEvent] at hev
    | relaySet g v => simp [isRelayEvent] at hev
    | relayRelease => simp [isRelayEvent] at hev
    | consolePrint s => exact ih hrest acc
    | mkdirP p => exact ih hrest acc
    | fileAppend p entry => exact ih hrest acc

/-- After a successful `set_value` in cleanup, the relay line ends at
`RELAY_OFF`, whatever level it held before. -/
theorem finalRelay_cleanup (acc : Option GpiodValue) (r : Option String) :
    (cleanupEvents { setErr := none, releaseErr := r }).foldl
      (fun acc ev =>
        match ev with
        | Event.relayRequest _ v => some v
        | Event.relaySet _ v => some v
        | _ => acc)
      acc = some RELAY_OFF := by
  cases r <;> rfl

/-- The loop run on a normal prefix followed by a raising pass: events are the
prefix's followed by the handler's (for an `Exception`) and the raised
exception propagates. -/
theorem runLoop_ok_then_raise (oks : List IterInput) (last : ℚ) (e : PyErr)
    (errNow : DateTime) :
    runLoop last (oks.map ReadResult.ok ++ [ReadResult.raise e errNow])
      = ((runLoop last (oks.map ReadResult.ok)).1 ++
           (match e.kind with
            | ErrKind.exception => handlerEvents errNow e
            | ErrKind.keyboardInterrupt => []),
         some e) := by
  rw [runLoop_append]
  cases hk : e.kind <;> simp [runLoop, hk]

/-- Evaluation of `runProgram` on a normal prefix ending in a raised `Exception`. -/
theorem runProgram_exception (oks : List IterInput) (e : PyErr) (errNow : DateTime)
    (f : CleanupFaults) (hk : e.kind = ErrKind.exception) :
    runProgram (oks.map ReadResult.ok ++ [ReadResult.raise e errNow]) f
      = (startupEvents ++
          ((runLoop 0 (oks.map ReadResult.ok)).1 ++ handlerEvents errNow e) ++
          cleanupEvents f,
         ExitStatus.fatal e) := by
  unfold runProgram
  rw [runLoop_ok_then_raise, hk]
  simp [List.append_assoc]
  rw [hk]

/-- Evaluation of `runProgram` on a normal prefix ending in a `KeyboardInterrupt`. -/
theorem runProgram_interrupt (oks : List IterInput) (e : PyErr) (errNow : DateTime)
    (f : CleanupFaults) (hk : e.kind = ErrKind.keyboardInterrupt) :
    runProgram (oks.map ReadResult.ok ++ [ReadResult.raise e errNow]) f
      = (startupEvents ++ ((runLoop 0 (oks.map ReadResult.ok)).1 ++ []) ++
          [Event.consolePrint "\nユーザーによって停止されました"] ++ cleanupEvents f,
         ExitStatus.clean) := by
  unfold runProgram
  rw [runLoop_ok_then_raise, hk]
  simp [List.append_assoc]
  rw [hk]

/-- Evaluation of `runProgram` on a normal prefix with no raise: still running, no cleanup. -/
theorem runProgram_running (oks : List IterInput) (f : CleanupFaults) :
    runProgram (oks.map ReadResult.ok) f
      = (startupEvents ++ (runLoop 0 (oks.map ReadResult.ok)).1, ExitStatus.running) := by
  have h2 := runLoopOk_snd oks 0
  unfold runProgram
  simp [h2]

/-! ## Helper lemmas: classification messages and gate computations -/

/-- The dry and wet messages always differ (their fixed prefixes have
different lengths, 26 vs 25 characters). -/
theorem dryMessage_ne_wetMessage (v w : ℤ) (hv : v = w) :
    dryMessage v ≠ wetMessage w := by
  intro h
  have hlen := congrArg (fun s => s.data.length) h
  simp only [dryMessage, wetMessage, String.data_append, List.length_append] at hlen
  have l1 : ("ログ📙:土壌が乾燥しています------value:" : String).data.length = 26 := rfl
  have l2 : ("ログ📙:土壌が湿っています------value:" : String).data.length = 25 := rfl
  rw [l1, l2, hv] at hlen
  omega

/-- With the gate open, the iteration's appends are exactly the one reading
line carrying the classified message. -/
theorem loopCycle_appends_pos {last : ℚ} {inp : IterInput}
    (h : (LOG_INTERVAL : ℚ) ≤ inp.time - last) :
    (loopCycle last inp).1.filter isFileAppend
      = [Event.fileAppend (soilLogFile inp.now)
          (logEntry inp.now (loopMessage inp.value) inp.value inp.voltage)] := by
  unfold loopCycle
  rw [if_pos h]
  rfl

/-- With the gate closed, the iteration appends nothing. -/
theorem loopCycle_appends_neg {last : ℚ} {inp : IterInput}
    (h : ¬ (LOG_INTERVAL : ℚ) ≤ inp.time - last) :
    (loopCycle last inp).1.filter isFileAppend = [] := by
  unfold loopCycle
  rw [if_neg h]
  rfl

/-- With the gate closed, `last_log_time` is unchanged. -/
theorem loopCycle_last_neg {last : ℚ} {inp : IterInput}
    (h : ¬ (LOG_INTERVAL : ℚ) ≤ inp.time - last) :
    (loopCycle last inp).2 = last := by
  unfold loopCycle
  rw [if_neg h]

/-- Rounding an integer is the identity. -/
theorem roundHalfEven_intCast (n : ℤ) : roundHalfEven (n : ℚ) = n := by
  unfold roundHalfEven ratFloor
  rw [Rat.intCast_num, Rat.intCast_den]
  simp only [Nat.cast_one, Int.fdiv_one, sub_self]
  rw [if_neg (by norm_num), if_pos (by norm_num)]

/-- The scenario voltage `2.1` renders as `2.100` under `%.3f`. -/
theorem fmt3_sample : fmt3 ((21 : ℚ) / 10) = "2.100" := by
  unfold fmt3
  rw [show ((21 : ℚ) / 10) * 1000 = ((2100 : ℤ) : ℚ) by norm_num, roundHalfEven_intCast]
  rfl

/-! ## Helper lemmas: general loop runs -/

/-- Every event any loop run emits is a console print, a mkdir of a date
directory, or an append to a day's readings or error file. -/
theorem runLoop_mem_shape {reads : List ReadResult} {last : ℚ} {ev : Event}
    (h : ev ∈ (runLoop last reads).1) :
    (∃ s, ev = Event.consolePrint s) ∨ (∃ d, ev = Event.mkdirP (logDir d)) ∨
      (∃ d entry, ev = Event.fileAppend (soilLogFile d) entry) ∨
      ∃ d entry, ev = Event.fileAppend (errorLogFile d) entry := by
  induction reads generalizing last with
  | nil => simp [runLoop] at h
  | cons r rest ih =>
    cases r with
    | ok inp =>
      simp only [runLoop, List.mem_append] at h
      rcases h with h | h
      · rcases loopCycle_mem_shape h with h | h | h
        · exact Or.inl h
        · exact Or.inr (Or.inl ⟨_, h⟩)
        · exact Or.inr (Or.inr (Or.inl ⟨_, _, h⟩))
      · exact ih h
    | raise e errNow =>
      cases hk : e.kind with
      | exception =>
        simp only [runLoop, hk, handlerEvents, log_error, List.append_eq,
          List.mem_append, List.mem_cons, List.not_mem_nil, or_false] at h
        rcases h with (h | h | h) | h | h
        · exact Or.inr (Or.inl ⟨_, h⟩)
        · exact Or.inr (Or.inr (Or.inr ⟨_, _, h⟩))
        · exact Or.inl ⟨_, h⟩
        · exact Or.inl ⟨_, h⟩
        · exact Or.inl ⟨_, h⟩
      | keyboardInterrupt => simp [runLoop, hk] at h

/-- No loop run - iterations or error handling - touches the relay line. -/
theorem runLoop_no_relay (reads : List ReadResult) (last : ℚ) :
    (runLoop last reads).1.filter isRelayEvent = [] := by
  rw [List.filter_eq_nil_iff]
  intro ev hev
  rcases runLoop_mem_shape hev with ⟨s, rfl⟩ | ⟨d, rfl⟩ | ⟨d, entry, rfl⟩ | ⟨d, entry, rfl⟩ <;>
    simp [isRelayEvent]

/-- No loop run drives the pump-ON level. -/
theorem runLoop_no_pumpOn (reads : List ReadResult) (last : ℚ) :
    (runLoop last reads).1.filter isPumpOn = [] := by
  rw [List.filter_eq_nil_iff]
  intro ev hev
  rcases runLoop_mem_shape hev with ⟨s, rfl⟩ | ⟨d, rfl⟩ | ⟨d, entry, rfl⟩ | ⟨d, entry, rfl⟩ <;>
    simp [isPumpOn]

/-- The cleanup block keeps only relay operations after filtering, starting -
when `set_value` succeeds - with the OFF write. -/
theorem cleanupEvents_filter_relay (f : CleanupFaults) :
    (cleanupEvents f).filter isRelayEvent = []
      ∨ ∃ tail, (cleanupEvents f).filter isRelayEvent
          = Event.relaySet RELAY_GPIO RELAY_OFF :: tail := by
  obtain ⟨s, r⟩ := f
  cases s with
  | some msg => exact Or.inl rfl
  | none =>
    cases r with
    | some msg => exact Or.inr ⟨[], rfl⟩
    | none => exact Or.inr ⟨[Event.relayRelease], rfl⟩

/-! ## Claim theorems -/

/-- C1: for every raw sensor value, an iteration that logs writes the dry
message exactly when `value > DRY_THRESHOLD` and the wet message exactly when
`value <= DRY_THRESHOLD`; at the boundary `value = DRY_THRESHOLD` the message
is the wet one (and dry and wet messages never coincide). -/
theorem c1_dry_wet_classification (last : ℚ) (inp : IterInput)
    (hgate : (LOG_INTERVAL : ℚ) ≤ inp.time - last) :
    ((DRY_THRESHOLD < inp.value →
        (loopCycle last inp).1.filter isFileAppend
          = [Event.fileAppend (soilLogFile inp.now)
              (logEntry inp.now (dryMessage inp.value) inp.value inp.voltage)])
      ∧ (inp.value ≤ DRY_THRESHOLD →
        (loopCycle last inp).1.filter isFileAppend
          = [Event.fileAppend (soilLogFile inp.now)
              (logEntry inp.now (wetMessage inp.value) inp.value inp.voltage)]))
    ∧ loopMessage DRY_THRESHOLD = wetMessage DRY_THRESHOLD
    ∧ ∀ v : ℤ, dryMessage v ≠ wetMessage v := by
  refine ⟨⟨fun hdry => ?_, fun hwet => ?_⟩, ?_, fun v => dryMessage_ne_wetMessage v v rfl⟩
  · rw [loopCycle_appends_pos hgate, loopMessage, if_pos hdry]
  · rw [loopCycle_appends_pos hgate, loopMessage, if_neg (not_lt.2 hwet)]
  · rw [loopMessage, if_neg (lt_irrefl DRY_THRESHOLD)]

/-- C1 witness: at raw value 20000 (dry) with the gate open. -/
theorem c1_dry_wet_classification_witness :
    (LOG_INTERVAL : ℚ) ≤ (5 : ℚ) - 0
    ∧ ((DRY_THRESHOLD < (20000 : ℤ) →
          (loopCycle 0 (⟨20000, 21/10, 5, ⟨2026, 10, 12, 3, 4, 5⟩⟩ : IterInput)).1.filter isFileAppend
            = [Event.fileAppend (soilLogFile ⟨2026, 10, 12, 3, 4, 5⟩)
                (logEntry ⟨2026, 10, 12, 3, 4, 5⟩ (dryMessage 20000) 20000 (21/10))])
        ∧ ((20000 : ℤ) ≤ DRY_THRESHOLD →
          (loopCycle 0 (⟨20000, 21/10, 5, ⟨2026, 10, 12, 3, 4, 5⟩⟩ : IterInput)).1.filter isFileAppend
            = [Event.fileAppend (soilLogFile ⟨2026, 10, 12, 3, 4, 5⟩)
                (logEntry ⟨2026, 10, 12, 3, 4, 5⟩ (wetMessage 20000) 20000 (21/10))]))
      ∧ loopMessage DRY_THRESHOLD = wetMessage DRY_THRESHOLD
      ∧ ∀ v : ℤ, dryMessage v ≠ wetMessage v :=
  ⟨by norm_num [LOG_INTERVAL],
   c1_dry_wet_classification 0
     (⟨20000, 21/10, 5, ⟨2026, 10, 12, 3, 4, 5⟩⟩ : IterInput)
     (by norm_num [LOG_INTERVAL])⟩

/-- C2: two iterations whose reads both fall strictly less than `LOG_INTERVAL`
seconds after the last-logged timestamp perform at most one (in fact zero)
reading log writes; and in every iteration a reading entry is written only if
at least `LOG_INTERVAL` seconds elapsed since the last-logged timestamp. -/
theorem c2_log_rate_limited :
    (∀ (last : ℚ) (i1 i2 : IterInput),
        i1.time - last < (LOG_INTERVAL : ℚ) → i2.time - last < (LOG_INTERVAL : ℚ) →
        countAppends (loopCycle last i1).1
          + countAppends (loopCycle (loopCycle last i1).2 i2).1 ≤ 1)
    ∧ ∀ (last : ℚ) (i : IterInput),
        0 < countAppends (loopCycle last i).1 → (LOG_INTERVAL : ℚ) ≤ i.time - last := by
  constructor
  · intro last i1 i2 h1 h2
    have hg1 : ¬ (LOG_INTERVAL : ℚ) ≤ i1.time - last := not_le.2 h1
    have c1 : countAppends (loopCycle last i1).1 = 0 := by
      rw [countAppends, loopCycle_appends_neg hg1]; rfl
    have hlast := loopCycle_last_neg hg1
    have hg2 : ¬ (LOG_INTERVAL : ℚ) ≤ i2.time - (loopCycle last i1).2 := by
      rw [hlast]; exact not_le.2 h2
    have c2 : countAppends (loopCycle (loopCycle last i1).2 i2).1 = 0 := by
      rw [countAppends, loopCycle_appends_neg hg2]; rfl
    omega
  · intro last i h
    by_contra hg
    rw [countAppends, loopCycle_appends_neg hg] at h
    exact absurd h (by simp)

/-- C2 witness: two reads at times 1/4 and 1/2 after a log at time 0. -/
theorem c2_log_rate_limited_witness :
    ((1 : ℚ)/4 - 0 < (LOG_INTERVAL : ℚ) ∧ (1 : ℚ)/2 - 0 < (LOG_INTERVAL : ℚ))
    ∧ countAppends (loopCycle 0 (⟨20000, 21/10, 1/4, ⟨2026, 10, 12, 3, 4, 5⟩⟩ : IterInput)).1
        + countAppends (loopCycle
            (loopCycle 0 (⟨20000, 21/10, 1/4, ⟨2026, 10, 12, 3, 4, 5⟩⟩ : IterInput)).2
            (⟨20000, 21/10, 1/2, ⟨2026, 10, 12, 3, 4, 5⟩⟩ : IterInput)).1 ≤ 1 :=
  ⟨⟨by norm_num [LOG_INTERVAL], by norm_num [LOG_INTERVAL]⟩,
   c2_log_rate_limited.1 0
     (⟨20000, 21/10, 1/4, ⟨2026, 10, 12, 3, 4, 5⟩⟩ : IterInput)
     (⟨20000, 21/10, 1/2, ⟨2026, 10, 12, 3, 4, 5⟩⟩ : IterInput)
     (by norm_num [LOG_INTERVAL]) (by norm_num [LOG_INTERVAL])⟩

/-- C8: after the startup line request the relay is logically OFF regardless
of the prior physical level: the line is configured as an output with initial
value `RELAY_OFF`, which is the physical ACTIVE level of the active-low
relay. -/
theorem c8_relay_init_off (prior : GpiodValue) :
    applyRequest prior relaySettings = RELAY_OFF
    ∧ logicalOn (applyRequest prior relaySettings) = false
    ∧ relaySettings.output_value = RELAY_OFF
    ∧ relaySettings.direction = Direction.OUTPUT
    ∧ RELAY_OFF = GpiodValue.ACTIVE
    ∧ RELAY_ON = GpiodValue.INACTIVE
    ∧ Event.relayRequest RELAY_GPIO RELAY_OFF ∈ startupEvents :=
  ⟨rfl, rfl, rfl, rfl, rfl, rfl, by simp [startupEvents]⟩

/-- C10 counterexample: the claim quantifies over every positive wall-clock
time, but at `time.time() = 1/2` - positive, yet below `LOG_INTERVAL = 1` -
the first iteration's gate `current_time - 0 >= LOG_INTERVAL` is false and no
reading entry is written. -/
theorem c10_counterexample :
    (0 : ℚ) < 1/2
    ∧ countAppends (loopCycle 0 (⟨20000, 21/10, 1/2, ⟨2026, 10, 12, 3, 4, 5⟩⟩ :
        IterInput)).1 = 0 := by
  constructor
  · norm_num
  · have hg : ¬ (LOG_INTERVAL : ℚ) ≤
        ((⟨20000, 21/10, 1/2, ⟨2026, 10, 12, 3, 4, 5⟩⟩ : IterInput)).time - 0 := by
      norm_num [LOG_INTERVAL]
    rw [countAppends, loopCycle_appends_neg hg]
    rfl

/-- C10 (amended): on the first loop iteration - `last_log_time = 0` - a
reading log entry is written whenever the current wall-clock time is at least
`LOG_INTERVAL` (1 second), the gate reducing to `current_time >= LOG_INTERVAL`. -/
theorem c10_first_iteration_logs (inp : IterInput)
    (h : (LOG_INTERVAL : ℚ) ≤ inp.time) :
    countAppends (loopCycle 0 inp).1 = 1
    ∧ (loopCycle 0 inp).1.filter isFileAppend
      = [Event.fileAppend (soilLogFile inp.now)
          (logEntry inp.now (loopMessage inp.value) inp.value inp.voltage)] := by
  have hg : (LOG_INTERVAL : ℚ) ≤ inp.time - 0 := by rwa [sub_zero]
  exact ⟨by rw [countAppends, loopCycle_appends_pos hg]; rfl, loopCycle_appends_pos hg⟩

/-- C10 witness: at an epoch-scale first read time the entry is written. -/
theorem c10_first_iteration_logs_witness :
    (LOG_INTERVAL : ℚ) ≤
        ((⟨20000, 21/10, 1760000000, ⟨2026, 10, 12, 3, 4, 5⟩⟩ : IterInput)).time
    ∧ countAppends (loopCycle 0
        (⟨20000, 21/10, 1760000000, ⟨2026, 10, 12, 3, 4, 5⟩⟩ : IterInput)).1 = 1 :=
  ⟨by norm_num [LOG_INTERVAL],
   (c10_first_iteration_logs (⟨20000, 21/10, 1760000000, ⟨2026, 10, 12, 3, 4, 5⟩⟩ :
      IterInput) (by norm_num [LOG_INTERVAL])).1⟩

/-- C5: the target log file path is a pure function of (year, month, day) and
the category: equal dates give equal paths (whatever the time of day), and -
within `strftime`'s zero-padded ranges - different dates give different
paths; readings and errors resolve to `log/YYYY/MM/YYYY-MM-DD.log` and
`log/YYYY/MM/YYYY-MM-DD_error.log`, which never collide with each other. -/
theorem c5_log_path_pure (d1 d2 : DateTime)
    (hy1 : d1.year < 10000) (hm1 : d1.month < 100) (hd1 : d1.day < 100)
    (hy2 : d2.year < 10000) (hm2 : d2.month < 100) (hd2 : d2.day < 100) :
    ((d1.year = d2.year ∧ d1.month = d2.month ∧ d1.day = d2.day)
        ↔ soilLogFile d1 = soilLogFile d2)
    ∧ ((d1.year = d2.year ∧ d1.month = d2.month ∧ d1.day = d2.day)
        ↔ errorLogFile d1 = errorLogFile d2)
    ∧ soilLogFile d1 ≠ errorLogFile d2
    ∧ soilLogFile d1 = ["log", pad4 d1.year, pad2 d1.month,
        pad4 d1.year ++ "-" ++ pad2 d1.month ++ "-" ++ pad2 d1.day ++ ".log"]
    ∧ errorLogFile d1 = ["log", pad4 d1.year, pad2 d1.month,
        pad4 d1.year ++ "-" ++ pad2 d1.month ++ "-" ++ pad2 d1.day ++ "_error.log"] := by
  refine ⟨⟨fun hsame => ?_, fun hpath => ?_⟩, ⟨fun hsame => ?_, fun hpath => ?_⟩,
    soilLogFile_ne_errorLogFile d1 d2, rfl, rfl⟩
  · obtain ⟨h1, h2, h3⟩ := hsame
    simp [soilLogFile, logDir, h1, h2, h3]
  · unfold soilLogFile logDir LOG_BASE_DIR at hpath
    simp only [List.cons_append, List.nil_append, List.cons.injEq, and_true] at hpath
    obtain ⟨-, h4, h2, hname⟩ := hpath
    obtain ⟨-, -, hday⟩ := dateName_inj ".log" hname
    exact ⟨pad4_inj hy1 hy2 h4, pad2_inj hm1 hm2 h2, pad2_inj hd1 hd2 hday⟩
  · obtain ⟨h1, h2, h3⟩ := hsame
    simp [errorLogFile, logDir, h1, h2, h3]
  · unfold errorLogFile logDir LOG_BASE_DIR at hpath
    simp only [List.cons_append, List.nil_append, List.cons.injEq, and_true] at hpath
    obtain ⟨-, h4, h2, hname⟩ := hpath
    obtain ⟨-, -, hday⟩ := dateName_inj "_error.log" hname
    exact ⟨pad4_inj hy1 hy2 h4, pad2_inj hm1 hm2 h2, pad2_inj hd1 hd2 hday⟩

/-- C5 witness: two timestamps on the same day at different times, both within
the padded ranges. -/
theorem c5_log_path_pure_witness :
    ((2026 : ℕ) < 10000 ∧ (10 : ℕ) < 100 ∧ (12 : ℕ) < 100)
    ∧ (((⟨2026, 10, 12, 3, 4, 5⟩ : DateTime).year = (⟨2026, 10, 12, 20, 30, 40⟩ :
          DateTime).year
        ∧ (⟨2026, 10, 12, 3, 4, 5⟩ : DateTime).month = (⟨2026, 10, 12, 20, 30, 40⟩ :
          DateTime).month
        ∧ (⟨2026, 10, 12, 3, 4, 5⟩ : DateTime).day = (⟨2026, 10, 12, 20, 30, 40⟩ :
          DateTime).day)
       ↔ soilLogFile ⟨2026, 10, 12, 3, 4, 5⟩ = soilLogFile ⟨2026, 10, 12, 20, 30, 40⟩)
    ∧ soilLogFile ⟨2026, 10, 12, 3, 4, 5⟩ ≠ errorLogFile ⟨2026, 10, 12, 20, 30, 40⟩ :=
  ⟨⟨by norm_num, by norm_num, by norm_num⟩,
   (c5_log_path_pure ⟨2026, 10, 12, 3, 4, 5⟩ ⟨2026, 10, 12, 20, 30, 40⟩
      (by norm_num) (by norm_num) (by norm_num)
      (by norm_num) (by norm_num) (by norm_num)).1,
   (c5_log_path_pure ⟨2026, 10, 12, 3, 4, 5⟩ ⟨2026, 10, 12, 20, 30, 40⟩
      (by norm_num) (by norm_num) (by norm_num)
      (by norm_num) (by norm_num) (by norm_num)).2.2.1⟩

/-- C6: every reading log write appends the single line
`[<timestamp>] <message> | raw=<value>, voltage=<%.3f>V` with exactly one
newline, at the end; and in the scenario raw=20000, voltage=2.1 the appended
line contains `raw=20000, voltage=2.100V` and the dry message. -/
theorem c6_reading_line_format (last : ℚ) (inp : IterInput)
    (hgate : (LOG_INTERVAL : ℚ) ≤ inp.time - last) :
    ((loopCycle last inp).1.filter isFileAppend
        = [Event.fileAppend (soilLogFile inp.now)
            (logEntry inp.now (loopMessage inp.value) inp.value inp.voltage)])
    ∧ (∃ line, (logEntry inp.now (loopMessage inp.value) inp.value inp.voltage).data
          = line ++ ['\n'] ∧ line.count '\n' = 0)
    ∧ (∃ a b, (logEntry ⟨2026, 10, 12, 3, 4, 5⟩ (loopMessage 20000) 20000
          ((21 : ℚ)/10)).data
        = a ++ ("raw=20000, voltage=2.100V").data ++ b)
    ∧ loopMessage 20000 = dryMessage 20000 := by
  refine ⟨loopCycle_appends_pos hgate,
    ⟨("[" ++ timestampStr inp.now ++ "] " ++ loopMessage inp.value ++ " | raw=" ++
        intToString inp.value ++ ", voltage=" ++ fmt3 inp.voltage ++ "V").data, ?_, ?_⟩,
    ⟨("[" ++ timestampStr ⟨2026, 10, 12, 3, 4, 5⟩ ++ "] " ++ loopMessage 20000 ++
        " | ").data, ['\n'], ?_⟩, rfl⟩
  · show (logEntry inp.now (loopMessage inp.value) inp.value inp.voltage).data = _
    simp only [logEntry, String.data_append]
    simp [List.append_assoc]
  · simp only [String.data_append, List.count_append, count_nl_timestampStr,
      count_nl_loopMessage, count_nl_intToString, count_nl_fmt3]
    decide
  · simp only [logEntry, fmt3_sample, String.data_append]
    simp [List.append_assoc]
    rfl

/-- C6 witness: the scenario input raw=20000, voltage=2.1 with gate open. -/
theorem c6_reading_line_format_witness :
    (LOG_INTERVAL : ℚ) ≤
        ((⟨20000, 21/10, 5, ⟨2026, 10, 12, 3, 4, 5⟩⟩ : IterInput)).time - 0
    ∧ ((loopCycle 0 (⟨20000, 21/10, 5, ⟨2026, 10, 12, 3, 4, 5⟩⟩ : IterInput)).1.filter
          isFileAppend
        = [Event.fileAppend (soilLogFile ⟨2026, 10, 12, 3, 4, 5⟩)
            (logEntry ⟨2026, 10, 12, 3, 4, 5⟩ (loopMessage 20000) 20000 (21/10))])
    ∧ (∃ a b, (logEntry ⟨2026, 10, 12, 3, 4, 5⟩ (loopMessage 20000) 20000
          ((21 : ℚ)/10)).data
        = a ++ ("raw=20000, voltage=2.100V").data ++ b)
    ∧ loopMessage 20000 = dryMessage 20000 := by
  have h := c6_reading_line_format 0
    (⟨20000, 21/10, 5, ⟨2026, 10, 12, 3, 4, 5⟩⟩ : IterInput) (by norm_num [LOG_INTERVAL])
  exact ⟨by norm_num [LOG_INTERVAL], h.1, h.2.2.1, h.2.2.2⟩

/-- C3: when a cycle raises an `Exception` after any run of normal passes,
exactly one entry - the bordered block carrying the error kind and message -
is appended to that day's `_error.log`; the exception is re-raised so the
process exits fatally with it (no retry), and the final cleanup still drives
the relay line to `RELAY_OFF` (when its `set_value` call succeeds). -/
theorem c3_cycle_error_fatal (oks : List IterInput) (e : PyErr) (errNow : DateTime)
    (f : CleanupFaults) (hk : e.kind = ErrKind.exception) :
    ((runProgram (oks.map ReadResult.ok ++ [ReadResult.raise e errNow]) f).1.filter
        (isAppendTo (errorLogFile errNow))
      = [Event.fileAppend (errorLogFile errNow)
          (errorEntry errNow e.typeName e.message e.traceback)])
    ∧ (runProgram (oks.map ReadResult.ok ++ [ReadResult.raise e errNow]) f).2
        = ExitStatus.fatal e
    ∧ (∃ a b, (errorEntry errNow e.typeName e.message e.traceback).data
        = a ++ e.typeName.data ++ b)
    ∧ (∃ a b, (errorEntry errNow e.typeName e.message e.traceback).data
        = a ++ e.message.data ++ b)
    ∧ (f.setErr = none →
        finalRelay (runProgram (oks.map ReadResult.ok ++ [ReadResult.raise e errNow]) f).1
          = some RELAY_OFF) := by
  rw [runProgram_exception oks e errNow f hk]
  refine ⟨?_, rfl, ?_, ?_, ?_⟩
  · simp only [List.filter_append]
    rw [runLoopOk_no_errorAppend, handlerEvents_filter_appendTo, if_pos rfl,
      cleanupEvents_no_appendTo]
    rfl
  · exact ⟨(eq60 ++ "\n    [ERROR] " ++ timestampStr errNow ++
        "\n    エラータイプ: ").data,
      ("\n    エラー内容: " ++ e.message ++ "\n    " ++ e.traceback ++ "\n    " ++
        eq60 ++ "\n\n    ").data,
      by simp [errorEntry, String.data_append, List.append_assoc]⟩
  · exact ⟨(eq60 ++ "\n    [ERROR] " ++ timestampStr errNow ++
        "\n    エラータイプ: " ++ e.typeName ++ "\n    エラー内容: ").data,
      ("\n    " ++ e.traceback ++ "\n    " ++ eq60 ++ "\n\n    ").data,
      by simp [errorEntry, String.data_append, List.append_assoc]⟩
  · intro hs
    obtain ⟨s, r⟩ := f
    simp only at hs
    subst hs
    rw [finalRelay, List.foldl_append, finalRelay_cleanup]

/-- C3 witness: a bus error raised on the first cycle, cleanup succeeding. -/
theorem c3_cycle_error_fatal_witness :
    (PyErr.mk ErrKind.exception "OSError" "Remote I/O error" "Traceback").kind
        = ErrKind.exception
    ∧ ((runProgram ((List.map ReadResult.ok []) ++
          [ReadResult.raise (PyErr.mk ErrKind.exception "OSError" "Remote I/O error"
            "Traceback") ⟨2026, 10, 12, 3, 4, 5⟩]) ⟨none, none⟩).1.filter
          (isAppendTo (errorLogFile ⟨2026, 10, 12, 3, 4, 5⟩))
        = [Event.fileAppend (errorLogFile ⟨2026, 10, 12, 3, 4, 5⟩)
            (errorEntry ⟨2026, 10, 12, 3, 4, 5⟩ "OSError" "Remote I/O error" "Traceback")])
    ∧ (runProgram ((List.map ReadResult.ok []) ++
          [ReadResult.raise (PyErr.mk ErrKind.exception "OSError" "Remote I/O error"
            "Traceback") ⟨2026, 10, 12, 3, 4, 5⟩]) ⟨none, none⟩).2
        = ExitStatus.fatal (PyErr.mk ErrKind.exception "OSError" "Remote I/O error"
            "Traceback")
    ∧ finalRelay (runProgram ((List.map ReadResult.ok []) ++
          [ReadResult.raise (PyErr.mk ErrKind.exception "OSError" "Remote I/O error"
            "Traceback") ⟨2026, 10, 12, 3, 4, 5⟩]) ⟨none, none⟩).1 = some RELAY_OFF := by
  have h := c3_cycle_error_fatal []
    (PyErr.mk ErrKind.exception "OSError" "Remote I/O error" "Traceback")
    ⟨2026, 10, 12, 3, 4, 5⟩ ⟨none, none⟩ rfl
  exact ⟨rfl, h.1, h.2.1, h.2.2.2.2 rfl⟩

/-- C4: on every exit path - a raised `Exception` or an operator interrupt,
after any run of normal passes - the `finally` block's events close the trace;
the block performs no file write, a cleanup failure changes neither the exit
status nor whether the process exits, when `set_value` succeeds the OFF write
is in the block (followed by the release when that also succeeds), and when
`set_value` fails the block only prints. -/
theorem c4_cleanup_on_every_exit (oks : List IterInput) (e : PyErr) (errNow : DateTime)
    (f : CleanupFaults) :
    (∃ pre, (runProgram (oks.map ReadResult.ok ++ [ReadResult.raise e errNow]) f).1
        = pre ++ cleanupEvents f)
    ∧ (cleanupEvents f).filter isFileAppend = []
    ∧ (runProgram (oks.map ReadResult.ok ++ [ReadResult.raise e errNow]) f).2
        = (runProgram (oks.map ReadResult.ok ++ [ReadResult.raise e errNow])
            ⟨none, none⟩).2
    ∧ (f.setErr = none → f.releaseErr = none →
        cleanupEvents f
          = [Event.consolePrint "クリーンアップ中...",
             Event.relaySet RELAY_GPIO RELAY_OFF, Event.relayRelease,
             Event.consolePrint "クリーンアップ完了"])
    ∧ (f.setErr = none →
        ∃ a b, cleanupEvents f = a ++ Event.relaySet RELAY_GPIO RELAY_OFF :: b)
    ∧ (∀ msg, f.setErr = some msg →
        cleanupEvents f
          = [Event.consolePrint "クリーンアップ中...",
             Event.consolePrint ("クリーンアップ中にエラー: " ++ msg)]) := by
  obtain ⟨s, r⟩ := f
  refine ⟨?_, cleanupEvents_no_append _, ?_, ?_, ?_, ?_⟩
  · cases hk : e.kind with
    | exception =>
      rw [runProgram_exception oks e errNow _ hk]
      exact ⟨_, rfl⟩
    | keyboardInterrupt =>
      rw [runProgram_interrupt oks e errNow _ hk]
      refine ⟨startupEvents ++ ((runLoop 0 (oks.map ReadResult.ok)).1 ++
        [Event.consolePrint "\nユーザーによって停止されました"]), ?_⟩
      simp [List.append_assoc]
  · cases hk : e.kind with
    | exception =>
      rw [runProgram_exception oks e errNow _ hk,
        runProgram_exception oks e errNow ⟨none, none⟩ hk]
    | keyboardInterrupt =>
      rw [runProgram_interrupt oks e errNow _ hk,
        runProgram_interrupt oks e errNow ⟨none, none⟩ hk]
  · intro hs hr
    simp only at hs hr
    subst hs; subst hr
    rfl
  · intro hs
    simp only at hs
    subst hs
    cases r with
    | none => exact ⟨[Event.consolePrint "クリーンアップ中..."], _, rfl⟩
    | some msg => exact ⟨[Event.consolePrint "クリーンアップ中..."], _, rfl⟩
  · intro msg hs
    simp only at hs
    subst hs
    rfl

/-- C4 witness: an interrupt exit with a failing `set_value` in cleanup. -/
theorem c4_cleanup_on_every_exit_witness :
    (∃ pre, (runProgram ((List.map ReadResult.ok []) ++
        [ReadResult.raise (PyErr.mk ErrKind.keyboardInterrupt "KeyboardInterrupt" "" "")
          ⟨2026, 10, 12, 3, 4, 5⟩]) ⟨some "line busy", none⟩).1
        = pre ++ cleanupEvents ⟨some "line busy", none⟩)
    ∧ (cleanupEvents (⟨some "line busy", none⟩ : CleanupFaults)).filter isFileAppend = []
    ∧ (runProgram ((List.map ReadResult.ok []) ++
        [ReadResult.raise (PyErr.mk ErrKind.keyboardInterrupt "KeyboardInterrupt" "" "")
          ⟨2026, 10, 12, 3, 4, 5⟩]) ⟨some "line busy", none⟩).2
      = (runProgram ((List.map ReadResult.ok []) ++
        [ReadResult.raise (PyErr.mk ErrKind.keyboardInterrupt "KeyboardInterrupt" "" "")
          ⟨2026, 10, 12, 3, 4, 5⟩]) ⟨none, none⟩).2
    ∧ ((⟨some "line busy", none⟩ : CleanupFaults).setErr = some "line busy"
        → cleanupEvents ⟨some "line busy", none⟩
          = [Event.consolePrint "クリーンアップ中...",
             Event.consolePrint ("クリーンアップ中にエラー: " ++ "line busy")]) := by
  have h := c4_cleanup_on_every_exit []
    (PyErr.mk ErrKind.keyboardInterrupt "KeyboardInterrupt" "" "")
    ⟨2026, 10, 12, 3, 4, 5⟩ ⟨some "line busy", none⟩
  exact ⟨h.1, h.2.1, h.2.2.1, fun _ => h.2.2.2.2.2 "line busy" rfl⟩

/-- The whole-program trace is startup, then the loop's events, then (when the
loop raised) possibly the interrupt print and the cleanup block. -/
theorem runProgram_trace (reads : List ReadResult) (f : CleanupFaults) :
    ∃ post, (runProgram reads f).1 = startupEvents ++ (runLoop 0 reads).1 ++ post
      ∧ (post = [] ∨ post = cleanupEvents f
         ∨ post = Event.consolePrint "\nユーザーによって停止されました" :: cleanupEvents f) := by
  unfold runProgram
  rcases h2 : (runLoop 0 reads).2 with _ | e
  · exact ⟨[], by simp [h2], Or.inl rfl⟩
  · cases hk : e.kind with
    | exception =>
      exact ⟨cleanupEvents f, by simp [h2, hk, List.append_assoc], Or.inr (Or.inl rfl)⟩
    | keyboardInterrupt =>
      exact ⟨Event.consolePrint "\nユーザーによって停止されました" :: cleanupEvents f,
        by simp [h2, hk, List.append_assoc], Or.inr (Or.inr rfl)⟩

/-- C7: the relay line is touched only by the startup request (to `RELAY_OFF`)
and by the cleanup block (whose first relay operation, if any, is the
`RELAY_OFF` write): no loop iteration and no error handling performs a relay
operation, and no event of any program run ever drives the pump-ON level. -/
theorem c7_relay_only_startup_cleanup (reads : List ReadResult) (f : CleanupFaults)
    (last : ℚ) :
    (runLoop last reads).1.filter isRelayEvent = []
    ∧ ((runProgram reads f).1.filter isRelayEvent
          = Event.relayRequest RELAY_GPIO RELAY_OFF ::
              (cleanupEvents f).filter isRelayEvent
        ∨ (runProgram reads f).1.filter isRelayEvent
          = [Event.relayRequest RELAY_GPIO RELAY_OFF])
    ∧ (runProgram reads f).1.filter isPumpOn = []
    ∧ ((cleanupEvents f).filter isRelayEvent = []
        ∨ ∃ tail, (cleanupEvents f).filter isRelayEvent
            = Event.relaySet RELAY_GPIO RELAY_OFF :: tail) := by
  obtain ⟨post, htr, hpost⟩ := runProgram_trace reads f
  refine ⟨runLoop_no_relay reads last, ?_, ?_, cleanupEvents_filter_relay f⟩
  · rw [htr]
    simp only [List.filter_append, runLoop_no_relay]
    rcases hpost with rfl | rfl | rfl
    · right; rfl
    · left; rfl
    · left; rfl
  · rw [htr]
    have hst : startupEvents.filter isPumpOn = [] := rfl
    simp only [List.filter_append, runLoop_no_pumpOn, hst]
    rcases hpost with rfl | rfl | rfl
    · rfl
    · simp [cleanupEvents_no_pumpOn]
    · simp [cleanupEvents_no_pumpOn, List.filter_cons, isPumpOn]

/-- C9: an operator interrupt after any run of normal passes exits cleanly:
the inner `except Exception` does not handle it, no entry is written to any
error log, the exit status is never the fatal one, and the cleanup block
still closes the trace. -/
theorem c9_interrupt_clean_exit (oks : List IterInput) (e : PyErr) (errNow : DateTime)
    (f : CleanupFaults) (hk : e.kind = ErrKind.keyboardInterrupt) :
    (runProgram (oks.map ReadResult.ok ++ [ReadResult.raise e errNow]) f).2
        = ExitStatus.clean
    ∧ (∀ d : DateTime,
        (runProgram (oks.map ReadResult.ok ++ [ReadResult.raise e errNow]) f).1.filter
          (isAppendTo (errorLogFile d)) = [])
    ∧ (∃ pre, (runProgram (oks.map ReadResult.ok ++ [ReadResult.raise e errNow]) f).1
        = pre ++ cleanupEvents f)
    ∧ ∀ e2 : PyErr,
        (runProgram (oks.map ReadResult.ok ++ [ReadResult.raise e errNow]) f).2
          ≠ ExitStatus.fatal e2 := by
  rw [runProgram_interrupt oks e errNow f hk]
  refine ⟨rfl, ?_, ?_, ?_⟩
  · intro d
    simp only [List.filter_append, List.append_nil]
    rw [runLoopOk_no_errorAppend, cleanupEvents_no_appendTo]
    rfl
  · exact ⟨startupEvents ++ ((runLoop 0 (oks.map ReadResult.ok)).1 ++ []) ++
      [Event.consolePrint "\nユーザーによって停止されました"], by simp [List.append_assoc]⟩
  · intro e2
    simp

/-- C9 witness: an interrupt on the first cycle with successful cleanup. -/
theorem c9_interrupt_clean_exit_witness :
    (PyErr.mk ErrKind.keyboardInterrupt "KeyboardInterrupt" "" "").kind
        = ErrKind.keyboardInterrupt
    ∧ (runProgram ((List.map ReadResult.ok []) ++
        [ReadResult.raise (PyErr.mk ErrKind.keyboardInterrupt "KeyboardInterrupt" "" "")
          ⟨2026, 10, 12, 3, 4, 5⟩]) ⟨none, none⟩).2 = ExitStatus.clean
    ∧ (runProgram ((List.map ReadResult.ok []) ++
        [ReadResult.raise (PyErr.mk ErrKind.keyboardInterrupt "KeyboardInterrupt" "" "")
          ⟨2026, 10, 12, 3, 4, 5⟩]) ⟨none, none⟩).1.filter
        (isAppendTo (errorLogFile ⟨2026, 10, 12, 3, 4, 5⟩)) = [] := by
  have h := c9_interrupt_clean_exit []
    (PyErr.mk ErrKind.keyboardInterrupt "KeyboardInterrupt" "" "")
    ⟨2026, 10, 12, 3, 4, 5⟩ ⟨none, none⟩ rfl
  exact ⟨rfl, h.1, h.2.1 ⟨2026, 10, 12, 3, 4, 5⟩⟩
